import Mathlib

/-!
Verification development for a minimal HTTP CRUD service over a relational
table `items(id, name, description)` with a bounded database connection pool
(source: `function_app.py`).

The embedding is shallow:
* the database is a list of rows plus the storage's next generated id;
* the pool is the count of currently available (idle) connections —
  `get_db_connection` takes one out, `putconn` puts one back;
* a request body already parsed as JSON is a `ReqBody` with optional fields
  (`none` models a key absent from the JSON object); an unparseable body is
  modelled as the handler receiving `none` instead of `some body`, since
  `req.get_json()` raises before anything else runs;
* failures of the database layer are injected through a `SqlFault` parameter
  telling whether the SQL interaction (everything between acquiring the
  connection and releasing it) raises `psycopg2.DatabaseError`, raises some
  other exception, or succeeds;
* each handler is a total function from request data, fault and application
  state to an HTTP response and the new application state, mirroring the
  Python control flow line by line.
-/

/-- One row of the `items` table. -/
structure Item where
  id : Nat
  name : String
  description : String
deriving DecidableEq, Repr

/-- The `items` table together with the storage's id generator state. -/
structure DB where
  rows : List Item
  nextId : Nat
deriving DecidableEq, Repr

/-- The connection pool: number of idle connections available to lend. -/
structure Pool where
  avail : Nat
deriving DecidableEq, Repr

/-- Process-wide state seen by a handler: the database and the pool. -/
structure AppState where
  db : DB
  pool : Pool
deriving DecidableEq, Repr

/-- Outcome of the database interaction inside a handler's try block:
it succeeds, raises `psycopg2.DatabaseError`, or raises any other
exception. -/
inductive SqlFault
  | ok
  | dbError
  | otherError
deriving DecidableEq, Repr

/-- A JSON request body: `req_body.get("name")` / `req_body.get("description")`
return `None` when the key is missing, modelled by `none`. -/
structure ReqBody where
  name : Option String
  description : Option String
deriving DecidableEq, Repr

/-- Python truthiness of `req_body.get(key)`: `None` and `""` are falsy. -/
def truthy : Option String → Bool
  | none => false
  | some s => !(s == "")

/-- Bodies an HTTP response can carry (JSON encoding itself is out of scope,
so JSON payloads are kept structured). -/
inductive RespBody
  | jsonCreated (id : Nat) (message : String)
  | jsonItem (id : Nat) (name : String) (description : String)
  | jsonList (items : List Item)
  | text (s : String)
deriving DecidableEq, Repr

/-- An HTTP response: status code and body. -/
structure Response where
  status : Nat
  body : RespBody
deriving DecidableEq, Repr

/-- `db_pool.getconn()` via `get_db_connection`: lend one idle connection. -/
def get_db_connection (p : Pool) : Pool :=
  { avail := p.avail - 1 }

/-- `db_pool.putconn(conn)`: return the connection to the pool. -/
def putconn (p : Pool) : Pool :=
  { avail := p.avail + 1 }

/-- `INSERT INTO items (name, description) VALUES (%s, %s) RETURNING id;` —
the storage assigns the next generated id and returns it. -/
def insertItem (db : DB) (name description : String) : Nat × DB :=
  (db.nextId,
   { rows := db.rows ++ [{ id := db.nextId, name := name, description := description }],
     nextId := db.nextId + 1 })

/-- `SELECT id, name, description FROM items WHERE id = %s;` followed by
`fetchone()`: the first row matching the id, if any. -/
def selectItem (db : DB) (id : Nat) : Option Item :=
  db.rows.find? (fun r => r.id == id)

/-- `UPDATE items SET name = %s, description = %s WHERE id = %s;` —
every row matching the id gets the new name and description. -/
def updateRows (db : DB) (id : Nat) (name description : String) : DB :=
  { db with
    rows := db.rows.map (fun r =>
      if r.id == id then { r with name := name, description := description } else r) }

/-- `DELETE FROM items WHERE id = %s;` — remove every row matching the id. -/
def deleteRows (db : DB) (id : Nat) : DB :=
  { db with rows := db.rows.filter (fun r => r.id != id) }

/-- `SELECT id, name, description FROM items;` followed by `fetchall()`. -/
def selectAll (db : DB) : List Item :=
  db.rows

/-- Response of every `except psycopg2.DatabaseError` branch. -/
def dbErrResp : Response :=
  { status := 500, body := .text "Database error occurred." }

/-- Response of every `except Exception` branch. -/
def unexpResp : Response :=
  { status := 500, body := .text "An unexpected error occurred." }

/-- Response of the 400 validation branch of Create and Update. -/
def missingFieldResp : Response :=
  { status := 400,
    body := .text "Missing \x27name\x27 or \x27description\x27 in the request body." }

/-- `create_item` (POST /item). `body = none` models `req.get_json()` raising,
which the catch-all except turns into a generic 500. -/
def create_item (body : Option ReqBody) (fault : SqlFault) (s : AppState) :
    Response × AppState :=
  match body with
  | none => (unexpResp, s)
  | some b =>
    if !truthy b.name || !truthy b.description then
      (missingFieldResp, s)
    else
      let pool1 := get_db_connection s.pool
      match fault with
      | .dbError => (dbErrResp, { s with pool := pool1 })
      | .otherError => (unexpResp, { s with pool := pool1 })
      | .ok =>
        let r := insertItem s.db (b.name.getD "") (b.description.getD "")
        ({ status := 201, body := .jsonCreated r.1 "Item created successfully" },
         { db := r.2, pool := putconn pool1 })

/-- `read_item` (GET /item/id). -/
def read_item (id : Nat) (fault : SqlFault) (s : AppState) :
    Response × AppState :=
  let pool1 := get_db_connection s.pool
  match fault with
  | .dbError => (dbErrResp, { s with pool := pool1 })
  | .otherError => (unexpResp, { s with pool := pool1 })
  | .ok =>
    let s1 : AppState := { s with pool := putconn pool1 }
    match selectItem s.db id with
    | some it =>
      ({ status := 200, body := .jsonItem it.id it.name it.description }, s1)
    | none =>
      ({ status := 404, body := .text "Item not found." }, s1)

/-- `update_item` (PUT /item/id). -/
def update_item (id : Nat) (body : Option ReqBody) (fault : SqlFault) (s : AppState) :
    Response × AppState :=
  match body with
  | none => (unexpResp, s)
  | some b =>
    if !truthy b.name || !truthy b.description then
      (missingFieldResp, s)
    else
      let pool1 := get_db_connection s.pool
      match fault with
      | .dbError => (dbErrResp, { s with pool := pool1 })
      | .otherError => (unexpResp, { s with pool := pool1 })
      | .ok =>
        let db1 := updateRows s.db id (b.name.getD "") (b.description.getD "")
        ({ status := 200,
           body := .text ("Item " ++ toString id ++ " updated successfully.") },
         { db := db1, pool := putconn pool1 })

/-- `delete_item` (DELETE /item/id). -/
def delete_item (id : Nat) (fault : SqlFault) (s : AppState) :
    Response × AppState :=
  let pool1 := get_db_connection s.pool
  match fault with
  | .dbError => (dbErrResp, { s with pool := pool1 })
  | .otherError => (unexpResp, { s with pool := pool1 })
  | .ok =>
    ({ status := 200,
       body := .text ("Item " ++ toString id ++ " deleted successfully.") },
     { db := deleteRows s.db id, pool := putconn pool1 })

/-- `get_all_items` (GET /items). -/
def get_all_items (fault : SqlFault) (s : AppState) :
    Response × AppState :=
  let pool1 := get_db_connection s.pool
  match fault with
  | .dbError => (dbErrResp, { s with pool := pool1 })
  | .otherError => (unexpResp, { s with pool := pool1 })
  | .ok =>
    let items := selectAll s.db
    let s1 : AppState := { s with pool := putconn pool1 }
    if !items.isEmpty then
      ({ status := 200, body := .jsonList items }, s1)
    else
      ({ status := 404, body := .text "No items found." }, s1)

/-- Process environment: maps a variable name to its value, if set. -/
def Env : Type :=
  String → Option String

/-- The shape of `DB_CONFIG`. -/
structure DBConfig where
  host : Option String
  database : Option String
  user : Option String
  password : Option String
  port : String
deriving DecidableEq, Repr

/-- `DB_CONFIG`: connection details from environment variables; the port
defaults to "5432" when `DB_PORT` is unset. -/
def DB_CONFIG (env : Env) : DBConfig :=
  { host := env "DB_HOST"
    database := env "DB_NAME"
    user := env "DB_USER"
    password := env "DB_PASSWORD"
    port := (env "DB_PORT").getD "5432" }

/-- `psycopg2.pool.SimpleConnectionPool(minconn, maxconn, **config)`:
a pool parameterized by minimum size, maximum size and connection details. -/
structure SimpleConnectionPool where
  minconn : Nat
  maxconn : Nat
  config : DBConfig
deriving DecidableEq, Repr

/-- `db_pool`: the process-wide pool built at module load from `DB_CONFIG`. -/
def db_pool (env : Env) : SimpleConnectionPool :=
  { minconn := 1, maxconn := 10, config := DB_CONFIG env }

/-- Well-formedness of the storage: every existing row's id is below the id
generator's next value, so freshly generated ids never collide. -/
def WF (db : DB) : Bool :=
  db.rows.all (fun r => decide (r.id < db.nextId))

/-- The set of HTTP status codes the service can answer with. -/
def validStatus (n : Nat) : Prop :=
  n = 200 ∨ n = 201 ∨ n = 400 ∨ n = 404 ∨ n = 500

instance (n : Nat) : Decidable (validStatus n) := by
  unfold validStatus; infer_instance

/-- An application state with an empty table, used to instantiate theorems. -/
def s0 : AppState :=
  { db := { rows := [], nextId := 1 }, pool := { avail := 10 } }

/-- An application state with one stored row, used to instantiate theorems. -/
def s1 : AppState :=
  { db := { rows := [{ id := 1, name := "a", description := "b" }], nextId := 2 },
    pool := { avail := 10 } }

/-- Environment with no variable set, used to instantiate theorems. -/
def env0 : Env :=
  fun _ => none

/-- A well-formed database never already contains the id the storage will
generate next. -/
theorem WF_fresh (db : DB) (h : WF db = true) :
    ∀ r ∈ db.rows, r.id ≠ db.nextId := by
  intro r hr
  have h1 := List.all_eq_true.1 h r hr
  have h2 := of_decide_eq_true h1
  omega

/-- Appending a row whose id is fresh for the whole list makes lookup by that
id find exactly the appended row. -/
theorem find?_id_append_fresh (rows : List Item) (id : Nat) (it : Item)
    (h : ∀ r ∈ rows, r.id ≠ id) (hit : it.id = id) :
    (rows ++ [it]).find? (fun r => r.id == id) = some it := by
  rw [List.find?_append]
  have h1 : rows.find? (fun r => r.id == id) = none :=
    List.find?_eq_none.2 (fun x hx => by simpa using h x hx)
  have h2 : List.find? (fun r => r.id == id) [it] = some it :=
    List.find?_cons_of_pos _ (by simp [hit])
  rw [h1, h2]
  rfl

/-- With pairwise-distinct ids, lookup by the id of a member returns that
member. -/
theorem find?_id_of_mem_nodup (rows : List Item) (id : Nat) (r : Item)
    (hmem : r ∈ rows) (hid : r.id = id) (hnd : (rows.map Item.id).Nodup) :
    rows.find? (fun q => q.id == id) = some r := by
  induction rows with
  | nil => cases hmem
  | cons q qs ih =>
    rw [List.map_cons, List.nodup_cons] at hnd
    by_cases hq : q.id = id
    · rw [List.find?_cons_of_pos _ (by simp [hq])]
      rcases List.mem_cons.1 hmem with h | h
      · rw [h]
      · exfalso
        apply hnd.1
        rw [hq, ← hid]
        exact List.mem_map_of_mem Item.id h
    · rw [List.find?_cons_of_neg _ (by simp [hq])]
      have hr : r ∈ qs := by
        rcases List.mem_cons.1 hmem with h | h
        · exact absurd (h ▸ hid) hq
        · exact h
      exact ih hr hnd.2

/-- After updating every row matching an id that some member carries, lookup
by that id finds the updated values. -/
theorem find?_id_map_update (rows : List Item) (id : Nat) (n d : String)
    (h : ∃ r ∈ rows, r.id = id) :
    (rows.map (fun q =>
        if q.id == id then { q with name := n, description := d } else q)).find?
      (fun q => q.id == id) = some { id := id, name := n, description := d } := by
  induction rows with
  | nil =>
    rcases h with ⟨r, hr, _⟩
    cases hr
  | cons q qs ih =>
    rw [List.map_cons]
    by_cases hq : q.id = id
    · rw [if_pos (by simp [hq])]
      rw [List.find?_cons_of_pos _ (by simp [hq])]
      simp [hq]
    · rw [if_neg (by simp [hq])]
      rw [List.find?_cons_of_neg _ (by simp [hq])]
      apply ih
      rcases h with ⟨r, hr, hrid⟩
      rcases List.mem_cons.1 hr with h1 | h1
      · exact absurd (h1 ▸ hrid) hq
      · exact ⟨r, h1, hrid⟩

/-- Every Create outcome carries one of the service's status codes. -/
theorem create_item_status (body : Option ReqBody) (f : SqlFault) (s : AppState) :
    validStatus (create_item body f s).1.status := by
  unfold validStatus create_item
  cases body with
  | none => simp [unexpResp]
  | some b =>
    by_cases hc : (!truthy b.name || !truthy b.description) = true
    · simp [hc, missingFieldResp]
    · cases f <;> simp [hc, dbErrResp, unexpResp]

/-- Every Read outcome carries one of the service's status codes. -/
theorem read_item_status (id : Nat) (f : SqlFault) (s : AppState) :
    validStatus (read_item id f s).1.status := by
  unfold validStatus read_item
  cases f with
  | ok => cases h : selectItem s.db id <;> simp [h]
  | dbError => simp [dbErrResp]
  | otherError => simp [unexpResp]

/-- Every Update outcome carries one of the service's status codes. -/
theorem update_item_status (id : Nat) (body : Option ReqBody) (f : SqlFault) (s : AppState) :
    validStatus (update_item id body f s).1.status := by
  unfold validStatus update_item
  cases body with
  | none => simp [unexpResp]
  | some b =>
    by_cases hc : (!truthy b.name || !truthy b.description) = true
    · simp [hc, missingFieldResp]
    · cases f <;> simp [hc, dbErrResp, unexpResp]

/-- Every Delete outcome carries one of the service's status codes. -/
theorem delete_item_status (id : Nat) (f : SqlFault) (s : AppState) :
    validStatus (delete_item id f s).1.status := by
  unfold validStatus delete_item
  cases f <;> simp [dbErrResp, unexpResp]

/-- Every List outcome carries one of the service's status codes. -/
theorem get_all_items_status (f : SqlFault) (s : AppState) :
    validStatus (get_all_items f s).1.status := by
  unfold validStatus get_all_items
  cases f with
  | ok => by_cases h : (selectAll s.db).isEmpty <;> simp [h]
  | dbError => simp [dbErrResp]
  | otherError => simp [unexpResp]

/-- Claim C1: on a body with non-empty name and description, Create appends
exactly one new row carrying the storage-generated id, answers HTTP 201 with
`{id, message}` for that id, and a subsequent Read of that id answers
HTTP 200 with the same name and description. -/
theorem claim_C1 (name description : String) (s : AppState)
    (hn : name ≠ "") (hd : description ≠ "") (hwf : WF s.db = true) :
    (create_item (some { name := some name, description := some description }) .ok s).1 =
      { status := 201, body := .jsonCreated s.db.nextId "Item created successfully" } ∧
    (create_item (some { name := some name, description := some description }) .ok s).2.db.rows =
      s.db.rows ++ [{ id := s.db.nextId, name := name, description := description }] ∧
    (read_item s.db.nextId .ok
        (create_item (some { name := some name, description := some description }) .ok s).2).1 =
      { status := 200, body := .jsonItem s.db.nextId name description } := by
  have hcond : (!truthy (some name) || !truthy (some description)) = false := by
    simp [truthy, hn, hd]
  have hstate :
      (create_item (some { name := some name, description := some description }) .ok s).2 =
        { db := { rows := s.db.rows ++
                    [{ id := s.db.nextId, name := name, description := description }],
                  nextId := s.db.nextId + 1 },
          pool := putconn (get_db_connection s.pool) } := by
    simp [create_item, hcond, insertItem]
  refine ⟨by simp [create_item, hcond, insertItem], by rw [hstate], ?_⟩
  have hsel :
      selectItem
        (create_item (some { name := some name, description := some description }) .ok s).2.db
        s.db.nextId =
      some { id := s.db.nextId, name := name, description := description } := by
    rw [hstate]
    exact find?_id_append_fresh s.db.rows s.db.nextId _ (WF_fresh s.db hwf) rfl
  simp [read_item, hsel]

/-- Witness for C1 at name "a", description "b", empty database. -/
theorem claim_C1_w :
    ("a" : String) ≠ "" ∧ ("b" : String) ≠ "" ∧ WF s0.db = true ∧
    (read_item s0.db.nextId .ok
        (create_item (some { name := some "a", description := some "b" }) .ok s0).2).1 =
      { status := 200, body := .jsonItem s0.db.nextId "a" "b" } :=
  ⟨by decide, by decide, by decide,
   (claim_C1 "a" "b" s0 (by decide) (by decide) (by decide)).2.2⟩

/-- Claim C2: a Create or Update body whose name or description is missing or
empty is answered with the 400 validation response and leaves the whole
application state (database and pool) unchanged. -/
theorem claim_C2 (id : Nat) (b : ReqBody) (f : SqlFault) (s : AppState)
    (h : b.name = none ∨ b.name = some "" ∨ b.description = none ∨ b.description = some "") :
    create_item (some b) f s = (missingFieldResp, s) ∧
    update_item id (some b) f s = (missingFieldResp, s) ∧
    missingFieldResp.status = 400 := by
  have hcond : (!truthy b.name || !truthy b.description) = true := by
    rcases h with h | h | h | h <;> simp [truthy, h]
  exact ⟨by simp [create_item, hcond], by simp [update_item, hcond], rfl⟩

/-- Witness for C2 at a body missing its description. -/
theorem claim_C2_w :
    ({ name := some "a", description := none } : ReqBody).description = none ∧
    create_item (some { name := some "a", description := none }) .ok s1 =
      (missingFieldResp, s1) :=
  ⟨rfl,
   (claim_C2 1 { name := some "a", description := none } .ok s1
     (Or.inr (Or.inr (Or.inl rfl)))).1⟩

/-- Claim C3: Read never changes the database; it answers HTTP 404 "Item not
found." when no row matches the id, and HTTP 200 with the matching row's id,
name and description when a row matches (ids being pairwise distinct). -/
theorem claim_C3 (id : Nat) (s : AppState) :
    (∀ f : SqlFault, (read_item id f s).2.db = s.db) ∧
    ((∀ r ∈ s.db.rows, r.id ≠ id) →
      (read_item id .ok s).1 = { status := 404, body := .text "Item not found." }) ∧
    (∀ r, r ∈ s.db.rows → r.id = id → (s.db.rows.map Item.id).Nodup →
      (read_item id .ok s).1 = { status := 200, body := .jsonItem id r.name r.description }) := by
  refine ⟨?_, ?_, ?_⟩
  · intro f
    cases f with
    | ok => cases h : selectItem s.db id <;> simp [read_item, h]
    | dbError => simp [read_item]
    | otherError => simp [read_item]
  · intro h
    have hsel : selectItem s.db id = none :=
      List.find?_eq_none.2 (fun x hx => by simpa using h x hx)
    simp [read_item, hsel]
  · intro r hmem hid hnd
    have hsel : selectItem s.db id = some r :=
      find?_id_of_mem_nodup s.db.rows id r hmem hid hnd
    simp [read_item, hsel, hid]

/-- Witness for C3: a missing id on the empty database reads as 404, and the
stored row of `s1` reads back as 200. -/
theorem claim_C3_w :
    ((∀ r ∈ s0.db.rows, r.id ≠ 1) ∧
      (read_item 1 .ok s0).1 = { status := 404, body := .text "Item not found." }) ∧
    (({ id := 1, name := "a", description := "b" } : Item) ∈ s1.db.rows ∧
      ({ id := 1, name := "a", description := "b" } : Item).id = 1 ∧
      (s1.db.rows.map Item.id).Nodup ∧
      (read_item 1 .ok s1).1 = { status := 200, body := .jsonItem 1 "a" "b" }) :=
  ⟨⟨fun r hr => absurd hr (List.not_mem_nil r),
    (claim_C3 1 s0).2.1 (fun r hr => absurd hr (List.not_mem_nil r))⟩,
   ⟨by decide, rfl, by decide,
    (claim_C3 1 s1).2.2 { id := 1, name := "a", description := "b" }
      (by decide) rfl (by decide)⟩⟩

/-- Claim C4: with a valid body, Update answers HTTP 200 whether or not any
row matches the id (no existence check), performs exactly the by-id update on
the table, and when a row with that id exists a subsequent Read returns the
submitted name and description. -/
theorem claim_C4 (id : Nat) (name description : String) (s : AppState)
    (hn : name ≠ "") (hd : description ≠ "") :
    (update_item id (some { name := some name, description := some description }) .ok s).1 =
      { status := 200, body := .text ("Item " ++ toString id ++ " updated successfully.") } ∧
    (update_item id (some { name := some name, description := some description }) .ok s).2.db =
      updateRows s.db id name description ∧
    (∀ r, r ∈ s.db.rows → r.id = id →
      (read_item id .ok
          (update_item id (some { name := some name, description := some description }) .ok s).2).1 =
        { status := 200, body := .jsonItem id name description }) := by
  have hcond : (!truthy (some name) || !truthy (some description)) = false := by
    simp [truthy, hn, hd]
  have hstate :
      (update_item id (some { name := some name, description := some description }) .ok s).2 =
        { db := updateRows s.db id name description,
          pool := putconn (get_db_connection s.pool) } := by
    simp [update_item, hcond]
  refine ⟨by simp [update_item, hcond], by rw [hstate], ?_⟩
  intro r hmem hid
  have hsel :
      selectItem
        (update_item id (some { name := some name, description := some description }) .ok s).2.db
        id =
      some { id := id, name := name, description := description } := by
    rw [hstate]
    exact find?_id_map_update s.db.rows id name description ⟨r, hmem, hid⟩
  simp [read_item, hsel]

/-- Witness for C4: updating the stored row of `s1` answers 200 and reads
back with the submitted values. -/
theorem claim_C4_w :
    ("c" : String) ≠ "" ∧ ("d" : String) ≠ "" ∧
    (update_item 1 (some { name := some "c", description := some "d" }) .ok s1).1 =
      { status := 200, body := .text ("Item " ++ toString 1 ++ " updated successfully.") } ∧
    (({ id := 1, name := "a", description := "b" } : Item) ∈ s1.db.rows ∧
      (read_item 1 .ok
          (update_item 1 (some { name := some "c", description := some "d" }) .ok s1).2).1 =
        { status := 200, body := .jsonItem 1 "c" "d" }) :=
  ⟨by decide, by decide,
   (claim_C4 1 "c" "d" s1 (by decide) (by decide)).1,
   by decide,
   (claim_C4 1 "c" "d" s1 (by decide) (by decide)).2.2
     { id := 1, name := "a", description := "b" } (by decide) rfl⟩

/-- Claim C5: Delete always answers HTTP 200, a subsequent Read of the same
id answers 404, rows with other ids are kept, and no row is added. -/
theorem claim_C5 (id : Nat) (s : AppState) :
    (delete_item id .ok s).1 =
      { status := 200, body := .text ("Item " ++ toString id ++ " deleted successfully.") } ∧
    (read_item id .ok (delete_item id .ok s).2).1 =
      { status := 404, body := .text "Item not found." } ∧
    (∀ r ∈ s.db.rows, r.id ≠ id → r ∈ (delete_item id .ok s).2.db.rows) ∧
    (∀ r ∈ (delete_item id .ok s).2.db.rows, r ∈ s.db.rows) := by
  have hstate : (delete_item id .ok s).2 =
      { db := deleteRows s.db id, pool := putconn (get_db_connection s.pool) } := by
    simp [delete_item]
  refine ⟨by simp [delete_item], ?_, ?_, ?_⟩
  · have hsel : selectItem (delete_item id .ok s).2.db id = none := by
      rw [hstate]
      refine List.find?_eq_none.2 (fun x hx => ?_)
      have hx' := (List.mem_filter.1 hx).2
      simp at hx'
      simp [hx']
    simp [read_item, hsel]
  · intro r hr hne
    rw [hstate]
    exact List.mem_filter.2 ⟨hr, by simp [hne]⟩
  · intro r hr
    rw [hstate] at hr
    exact (List.mem_filter.1 hr).1

/-- Witness for C5: deleting id 1 from `s1` makes its read 404; deleting the
absent id 2 keeps the stored row. -/
theorem claim_C5_w :
    (read_item 1 .ok (delete_item 1 .ok s1).2).1 =
      { status := 404, body := .text "Item not found." } ∧
    (({ id := 1, name := "a", description := "b" } : Item) ∈ s1.db.rows ∧
      ({ id := 1, name := "a", description := "b" } : Item).id ≠ 2 ∧
      ({ id := 1, name := "a", description := "b" } : Item) ∈ (delete_item 2 .ok s1).2.db.rows) ∧
    (({ id := 1, name := "a", description := "b" } : Item) ∈ (delete_item 2 .ok s1).2.db.rows ∧
      ({ id := 1, name := "a", description := "b" } : Item) ∈ s1.db.rows) :=
  ⟨(claim_C5 1 s1).2.1,
   ⟨by decide, by decide,
    (claim_C5 2 s1).2.2.1 { id := 1, name := "a", description := "b" } (by decide) (by decide)⟩,
   ⟨by decide,
    (claim_C5 2 s1).2.2.2 { id := 1, name := "a", description := "b" } (by decide)⟩⟩

/-- Claim C6: List never changes the database; it answers HTTP 404 "No items
found." exactly when the table is empty and otherwise HTTP 200 with one
entry per stored row, matching the stored values. -/
theorem claim_C6 (s : AppState) :
    (∀ f : SqlFault, (get_all_items f s).2.db = s.db) ∧
    (s.db.rows = [] →
      (get_all_items .ok s).1 = { status := 404, body := .text "No items found." }) ∧
    (s.db.rows ≠ [] →
      (get_all_items .ok s).1 = { status := 200, body := .jsonList s.db.rows }) := by
  refine ⟨?_, ?_, ?_⟩
  · intro f
    cases f with
    | ok => by_cases h : (selectAll s.db).isEmpty <;> simp [get_all_items, h]
    | dbError => simp [get_all_items]
    | otherError => simp [get_all_items]
  · intro h
    simp [get_all_items, selectAll, h]
  · intro h
    simp [get_all_items, selectAll, h]

/-- Witness for C6: the empty table lists as 404, the one-row table lists as
200 with its single row. -/
theorem claim_C6_w :
    (s0.db.rows = [] ∧
      (get_all_items .ok s0).1 = { status := 404, body := .text "No items found." }) ∧
    (s1.db.rows ≠ [] ∧
      (get_all_items .ok s1).1 = { status := 200, body := .jsonList s1.db.rows }) :=
  ⟨⟨rfl, (claim_C6 s0).2.1 rfl⟩,
   ⟨by decide, (claim_C6 s1).2.2 (by decide)⟩⟩

/-- Claim C7: every handler outcome is one of the service's HTTP responses
(nothing propagates), a `psycopg2.DatabaseError` on any handler's database
interaction yields the fixed generic 500 "Database error occurred." response,
and any other failure yields the fixed generic 500 "An unexpected error
occurred." response. -/
theorem claim_C7 (id : Nat) (b : ReqBody) (body : Option ReqBody) (f : SqlFault)
    (s : AppState) (hn : truthy b.name = true) (hd : truthy b.description = true) :
    validStatus (create_item body f s).1.status ∧
    validStatus (read_item id f s).1.status ∧
    validStatus (update_item id body f s).1.status ∧
    validStatus (delete_item id f s).1.status ∧
    validStatus (get_all_items f s).1.status ∧
    (create_item (some b) .dbError s).1 = dbErrResp ∧
    (create_item (some b) .otherError s).1 = unexpResp ∧
    (read_item id .dbError s).1 = dbErrResp ∧
    (read_item id .otherError s).1 = unexpResp ∧
    (update_item id (some b) .dbError s).1 = dbErrResp ∧
    (update_item id (some b) .otherError s).1 = unexpResp ∧
    (delete_item id .dbError s).1 = dbErrResp ∧
    (delete_item id .otherError s).1 = unexpResp ∧
    (get_all_items .dbError s).1 = dbErrResp ∧
    (get_all_items .otherError s).1 = unexpResp := by
  have hcond : (!truthy b.name || !truthy b.description) = false := by
    simp [hn, hd]
  exact ⟨create_item_status body f s, read_item_status id f s,
    update_item_status id body f s, delete_item_status id f s,
    get_all_items_status f s,
    by simp [create_item, hcond], by simp [create_item, hcond],
    by simp [read_item], by simp [read_item],
    by simp [update_item, hcond], by simp [update_item, hcond],
    by simp [delete_item], by simp [delete_item],
    by simp [get_all_items], by simp [get_all_items]⟩

/-- Witness for C7 at a valid body, a database fault on Create and an
unexpected fault on Read. -/
theorem claim_C7_w :
    truthy (some "a") = true ∧ truthy (some "b") = true ∧
    (create_item (some { name := some "a", description := some "b" }) .dbError s1).1 =
      dbErrResp ∧
    (read_item 1 .otherError s1).1 = unexpResp :=
  ⟨by decide, by decide,
   (claim_C7 1 { name := some "a", description := some "b" } none .ok s1
     (by decide) (by decide)).2.2.2.2.2.1,
   (claim_C7 1 { name := some "a", description := some "b" } none .ok s1
     (by decide) (by decide)).2.2.2.2.2.2.2.2.1⟩

/-- Claim C8: when the database interaction raises after the connection was
acquired, the connection is not returned: the pool has one fewer available
connection after the error response; on every path without such an exception
the available count is unchanged. -/
theorem claim_C8 (id : Nat) (b : ReqBody) (f : SqlFault) (s : AppState)
    (hn : truthy b.name = true) (hd : truthy b.description = true)
    (hp : 1 ≤ s.pool.avail) (hf : f = SqlFault.dbError ∨ f = SqlFault.otherError) :
    (create_item (some b) f s).2.pool.avail + 1 = s.pool.avail ∧
    (read_item id f s).2.pool.avail + 1 = s.pool.avail ∧
    (update_item id (some b) f s).2.pool.avail + 1 = s.pool.avail ∧
    (delete_item id f s).2.pool.avail + 1 = s.pool.avail ∧
    (get_all_items f s).2.pool.avail + 1 = s.pool.avail ∧
    (create_item (some b) .ok s).2.pool.avail = s.pool.avail ∧
    (read_item id .ok s).2.pool.avail = s.pool.avail ∧
    (update_item id (some b) .ok s).2.pool.avail = s.pool.avail ∧
    (delete_item id .ok s).2.pool.avail = s.pool.avail ∧
    (get_all_items .ok s).2.pool.avail = s.pool.avail ∧
    (create_item none f s).2.pool.avail = s.pool.avail ∧
    (update_item id none f s).2.pool.avail = s.pool.avail := by
  have hcond : (!truthy b.name || !truthy b.description) = false := by
    simp [hn, hd]
  have hflow : ∀ p : Pool, 1 ≤ p.avail → (putconn (get_db_connection p)).avail = p.avail := by
    intro p hp1
    simp [putconn, get_db_connection]
    omega
  have hdown : ∀ p : Pool, 1 ≤ p.avail → (get_db_connection p).avail + 1 = p.avail := by
    intro p hp1
    simp [get_db_connection]
    omega
  refine ⟨?_, ?_, ?_, ?_, ?_, ?_, ?_, ?_, ?_, ?_, ?_, ?_⟩
  · rcases hf with rfl | rfl <;> simp [create_item, hcond, hdown s.pool hp]
  · rcases hf with rfl | rfl <;> simp [read_item, hdown s.pool hp]
  · rcases hf with rfl | rfl <;> simp [update_item, hcond, hdown s.pool hp]
  · rcases hf with rfl | rfl <;> simp [delete_item, hdown s.pool hp]
  · rcases hf with rfl | rfl <;> simp [get_all_items, hdown s.pool hp]
  · simp [create_item, hcond, hflow s.pool hp]
  · cases hsel : selectItem s.db id <;> simp [read_item, hsel, hflow s.pool hp]
  · simp [update_item, hcond, hflow s.pool hp]
  · simp [delete_item, hflow s.pool hp]
  · by_cases hemp : (selectAll s.db).isEmpty <;>
      simp [get_all_items, hemp, hflow s.pool hp]
  · cases f <;> simp [create_item]
  · cases f <;> simp [update_item]

/-- Witness for C8 at a valid body and a database fault on `s1`, whose pool
has ten available connections. -/
theorem claim_C8_w :
    truthy (some "a") = true ∧ truthy (some "b") = true ∧
    1 ≤ s1.pool.avail ∧
    (SqlFault.dbError = SqlFault.dbError ∨ SqlFault.dbError = SqlFault.otherError) ∧
    (create_item (some { name := some "a", description := some "b" }) .dbError s1).2.pool.avail + 1 =
      s1.pool.avail ∧
    (create_item (some { name := some "a", description := some "b" }) .ok s1).2.pool.avail =
      s1.pool.avail :=
  ⟨by decide, by decide, by decide, Or.inl rfl,
   (claim_C8 1 { name := some "a", description := some "b" } .dbError s1
     (by decide) (by decide) (by decide) (Or.inl rfl)).1,
   (claim_C8 1 { name := some "a", description := some "b" } .dbError s1
     (by decide) (by decide) (by decide) (Or.inl rfl)).2.2.2.2.2.1⟩

/-- Claim C9: the pool abstraction is parameterized by minimum and maximum
size; the process pool is built once from the environment-derived
configuration (host, database name, user, password, port), the port falling
back to "5432" when `DB_PORT` is unset. -/
theorem claim_C9 (env : Env) (mn mx : Nat) (cfg : DBConfig) :
    (SimpleConnectionPool.mk mn mx cfg).minconn = mn ∧
    (SimpleConnectionPool.mk mn mx cfg).maxconn = mx ∧
    db_pool env = SimpleConnectionPool.mk 1 10 (DB_CONFIG env) ∧
    (DB_CONFIG env).host = env "DB_HOST" ∧
    (DB_CONFIG env).database = env "DB_NAME" ∧
    (DB_CONFIG env).user = env "DB_USER" ∧
    (DB_CONFIG env).password = env "DB_PASSWORD" ∧
    (env "DB_PORT" = none → (DB_CONFIG env).port = "5432") ∧
    (∀ v, env "DB_PORT" = some v → (DB_CONFIG env).port = v) := by
  refine ⟨rfl, rfl, rfl, rfl, rfl, rfl, rfl, ?_, ?_⟩
  · intro h
    simp [DB_CONFIG, h]
  · intro v h
    simp [DB_CONFIG, h]

/-- Witness for C9 at the empty environment, where the port defaults. -/
theorem claim_C9_w :
    env0 "DB_PORT" = none ∧ (DB_CONFIG env0).port = "5432" :=
  ⟨rfl, (claim_C9 env0 1 10 (DB_CONFIG env0)).2.2.2.2.2.2.2.1 rfl⟩

/-- Claim C10: an unparseable body makes Create and Update answer the generic
500 "An unexpected error occurred." response (not 400) and leave the whole
application state unchanged. -/
theorem claim_C10 (id : Nat) (f : SqlFault) (s : AppState) :
    create_item none f s = (unexpResp, s) ∧
    update_item id none f s = (unexpResp, s) ∧
    unexpResp.status = 500 ∧
    unexpResp.status ≠ 400 :=
  ⟨rfl, rfl, rfl, by decide⟩
